import Mathlib

/-!
Verification of the idle-cash detection and recommendation ranking engine
(files src/mock_portfolio.py, src/investment_analyzer.py, src/news_analyzer.py,
config/config.py). Python numbers (floats and ints) are modelled as rationals,
datetimes as a record of a linear time value together with its calendar date
and ISO week, dictionaries keyed by symbol as total functions with default 0,
and fallible external collaborators (market data, news search) as explicit
inputs. Each definition mirrors one Python function; theorems settle the
specified properties.
-/

namespace Oscar

/-- Config constant from config/config.py line 24: 50 percent above average
monthly spending. -/
def UNUSED_BALANCE_THRESHOLD : ℚ := 0.5

/-- Config constant from config/config.py line 25: minimum amount to consider
for investment. -/
def MIN_INVESTMENT_AMOUNT : ℚ := 100

/-- Config constant from config/config.py line 26: maximum amount for a single
investment. -/
def MAX_INVESTMENT_AMOUNT : ℚ := 10000

/-- A Python datetime, abstracted to the observables the engine reads: a linear
time value (for window comparisons), the calendar date and the ISO week (for
the groupby aggregations in calculate_spending_patterns). -/
structure Timestamp where
  time : ℚ
  date : ℤ
  week : ℤ
deriving DecidableEq

/-- A transaction record as built by MockPortfolio (mock_portfolio.py
lines 183 to 191): id, symbol, action, shares, price, timestamp, total value. -/
structure Transaction where
  id : String
  symbol : String
  action : String
  shares : ℚ
  price : ℚ
  timestamp : Timestamp
  total_value : ℚ
deriving DecidableEq

/-- The MockPortfolio ledger state (mock_portfolio.py lines 12 to 18): cash
balance, per-symbol holdings (a dict read through get with default 0, modelled
as a total function), and the append-only transaction log. -/
structure MockPortfolio where
  cash_balance : ℚ
  holdings : String → ℚ
  transactions : List Transaction

/-- Mock price table, mock_portfolio.py lines 45 to 59; unknown symbols
default to 100. -/
def get_mock_price (symbol : String) : ℚ :=
  if symbol = "AAPL" then 175.50
  else if symbol = "MSFT" then 380.25
  else if symbol = "GOOGL" then 140.75
  else if symbol = "TSLA" then 245.30
  else if symbol = "SPY" then 450.80
  else if symbol = "NVDA" then 875.20
  else if symbol = "AMZN" then 155.40
  else if symbol = "META" then 485.60
  else if symbol = "NFLX" then 425.90
  else if symbol = "AMD" then 142.35
  else 100.0

/-- MockPortfolio.add_transaction, mock_portfolio.py lines 176 to 205. The
current wall-clock datetime is passed in as an argument; a missing price
argument (Python default None) is the none case and is filled from the mock
price table. Builds the transaction record with total_value = shares * price
for buy and sell and total_value = shares otherwise, appends it to the log,
then updates cash and holdings according to the action: buy subtracts the
total value from cash and adds the shares to the holding; sell adds the total
value to cash and sets the holding to max 0 (previous - shares); dividend adds
the total value to cash and leaves holdings untouched. -/
def add_transaction (p : MockPortfolio) (now : Timestamp) (symbol action : String)
    (shares : ℚ) (priceArg : Option ℚ) : MockPortfolio :=
  let price := priceArg.getD (get_mock_price symbol)
  let total_value := if action = "buy" ∨ action = "sell" then shares * price else shares
  let tx : Transaction :=
    { id := "manual_" ++ toString p.transactions.length
      symbol := symbol
      action := action
      shares := shares
      price := price
      timestamp := now
      total_value := total_value }
  let p1 : MockPortfolio := { p with transactions := p.transactions ++ [tx] }
  if action = "buy" then
    { p1 with cash_balance := p1.cash_balance - total_value
              holdings := Function.update p1.holdings symbol (p1.holdings symbol + shares) }
  else if action = "sell" then
    { p1 with cash_balance := p1.cash_balance + total_value
              holdings := Function.update p1.holdings symbol (max 0 (p1.holdings symbol - shares)) }
  else if action = "dividend" then
    { p1 with cash_balance := p1.cash_balance + total_value }
  else p1

/-- MockPortfolio.get_transaction_history, mock_portfolio.py lines 126 to 136:
keep the transactions whose timestamp lies in the trailing window
[now - days, now]. -/
def get_transaction_history (now days : ℚ) (txs : List Transaction) : List Transaction :=
  txs.filter (fun t => decide (now - days ≤ t.timestamp.time) && decide (t.timestamp.time ≤ now))

/-- The derived spending pattern dict returned by calculate_spending_patterns. -/
structure SpendingPattern where
  daily_average : ℚ
  weekly_average : ℚ
  monthly_average : ℚ
deriving DecidableEq

/-- Arithmetic mean of a list of rationals (pandas Series.mean on the grouped
sums). -/
def listMean (xs : List ℚ) : ℚ := xs.sum / xs.length

/-- The pandas groupby-sum over a key: one entry per distinct key value,
holding the sum of total_value over the transactions with that key. Models
spending_transactions.groupby(key)[total_value].sum() in mock_portfolio.py
lines 157 to 163. -/
def group_total_values (key : Transaction → ℤ) (txs : List Transaction) : List ℚ :=
  ((txs.map key).dedup).map
    (fun k => ((txs.filter (fun t => decide (key t = k))).map Transaction.total_value).sum)

/-- MockPortfolio.calculate_spending_patterns, mock_portfolio.py lines 138
to 169. Returns none when the trailing window holds no transactions at all;
when the window is nonempty but holds no buy or dividend_reinvest
transactions, returns the fixed fallback pattern (50, 350, 1500); otherwise
averages total_value per calendar date and per ISO week, with monthly average
equal to the daily mean times 30 (falling back to 150, 1050, 4500 when the
respective grouping is empty, as the source guards). -/
def calculate_spending_patterns (now days : ℚ) (txs : List Transaction) :
    Option SpendingPattern :=
  let transactions := get_transaction_history now days txs
  if transactions.isEmpty then none
  else
    let spending := transactions.filter
      (fun t => decide (t.action = "buy") || decide (t.action = "dividend_reinvest"))
    if spending.isEmpty then
      some { daily_average := 50.0, weekly_average := 350.0, monthly_average := 1500.0 }
    else
      let daily_spending := group_total_values (fun t => t.timestamp.date) spending
      let weekly_spending := group_total_values (fun t => t.timestamp.week) spending
      some
        { daily_average := if daily_spending.isEmpty then 150.0 else listMean daily_spending
          weekly_average := if weekly_spending.isEmpty then 1050.0 else listMean weekly_spending
          monthly_average :=
            if daily_spending.isEmpty then 4500.0 else listMean daily_spending * 30 }

/-- The result dict of identify_unused_funds, investment_analyzer.py
lines 83 to 89. -/
structure IdleFundsResult where
  total_balance : ℚ
  monthly_average : ℚ
  unused_funds : ℚ
  threshold : ℚ
  available_for_investment : ℚ
deriving DecidableEq

/-- The monthly average read in identify_unused_funds, investment_analyzer.py
lines 66 to 71: the default 1500 when no spending pattern is available, else
the monthly average of the pattern. -/
def pattern_monthly_average (spending_patterns : Option SpendingPattern) : ℚ :=
  match spending_patterns with
  | none => 1500.0
  | some p => p.monthly_average

/-- InvestmentAnalyzer.identify_unused_funds, investment_analyzer.py lines 59
to 94, as a function of the current cash balance and the spending-pattern
estimate it reads from the portfolio monitor. Threshold is the monthly
average times (1 + UNUSED_BALANCE_THRESHOLD); the safety net is one month of
spending; unused funds are the balance minus the safety net; the result is
returned only when unused funds reach MIN_INVESTMENT_AMOUNT, else none. -/
def identify_unused_funds (current_balance : ℚ)
    (spending_patterns : Option SpendingPattern) : Option IdleFundsResult :=
  let monthly_average : ℚ := pattern_monthly_average spending_patterns
  let threshold := monthly_average * (1 + UNUSED_BALANCE_THRESHOLD)
  let safety_net := monthly_average * 1
  let unused_funds := current_balance - safety_net
  if MIN_INVESTMENT_AMOUNT ≤ unused_funds then
    some
      { total_balance := current_balance
        monthly_average := monthly_average
        unused_funds := unused_funds
        threshold := threshold
        available_for_investment := unused_funds }
  else none

/-- The base risk accumulator of the suggestion-path risk classifier,
investment_analyzer.py lines 174 to 178: start at 0, add 1 for a growth
stock, add 0.5 for a region outside US and UK. -/
def base_risk (is_growth_stock : Bool) (region : String) : ℚ :=
  (if is_growth_stock then (1 : ℚ) else 0)
    + (if region = "US" ∨ region = "UK" then 0 else 0.5)

/-- The suggestion-path risk tier assignment, investment_analyzer.py
lines 180 to 187, keyed on annualized volatility and the base risk. -/
def classify_risk (volatility : ℚ) (is_growth_stock : Bool) (region : String) : String :=
  let br := base_risk is_growth_stock region
  if volatility < 0.2 then (if br < 1 then "low" else "medium")
  else if volatility < 0.3 then (if br < 1.5 then "medium" else "high")
  else if volatility < 0.5 then "high"
  else "extreme"

/-- The risk classifier exactly as the specification describes it (claim C4):
baseRisk = (growth, 1, else 0) + (region outside US and UK, 0.5, else 0), and
the four volatility tiers with their explicit range conditions. Written from
the words of the spec, to be compared with classify_risk. -/
def spec_classify_risk (v : ℚ) (g : Bool) (region : String) : String :=
  let baseRisk : ℚ :=
    (if g then (1 : ℚ) else 0) + (if region = "US" ∨ region = "UK" then 0 else 0.5)
  if v < 0.2 then (if baseRisk < 1 then "low" else "medium")
  else if 0.2 ≤ v ∧ v < 0.3 then (if baseRisk < 1.5 then "medium" else "high")
  else if 0.3 ≤ v ∧ v < 0.5 then "high"
  else "extreme"

/-- A news search result item, news_analyzer.py lines 56 to 63. -/
structure NewsItem where
  title : String
  snippet : String
  link : String
  source : String
  date : String
deriving DecidableEq

/-- Positive keyword list, news_analyzer.py lines 118 to 122. -/
def positive_keywords : List String :=
  ["growth", "profit", "gain", "rise", "increase", "bullish", "optimistic",
   "strong", "beat", "exceed", "outperform", "upgrade", "buy", "positive",
   "rally", "surge", "boom", "recovery", "expansion"]

/-- Negative keyword list, news_analyzer.py lines 124 to 128. -/
def negative_keywords : List String :=
  ["loss", "decline", "fall", "drop", "bearish", "pessimistic", "weak",
   "miss", "underperform", "downgrade", "sell", "negative", "crash",
   "plunge", "recession", "crisis", "concern", "risk", "volatility"]

/-- Python substring membership (kw in text) on the character sequences. -/
def keyword_in (text kw : String) : Bool := decide (kw.toList <:+: text.toList)

/-- Per-item sentiment record, news_analyzer.py lines 148 to 153. -/
structure SnippetScore where
  title : String
  sentiment : String
  score : ℚ
  source : String
deriving DecidableEq

/-- Aggregate sentiment record returned by analyze_sentiment,
news_analyzer.py lines 168 to 173. -/
structure SentimentAnalysis where
  overall_sentiment : String
  average_score : ℚ
  individual_scores : List SnippetScore
  total_articles : ℕ
deriving DecidableEq

/-- The per-item body of the loop in NewsAnalyzer.analyze_sentiment,
news_analyzer.py lines 132 to 153: lowercase the concatenation of title and
snippet, count positive and negative keyword hits, and emit the signed
clamped score min(delta, 5) / 5. -/
def score_news_item (item : NewsItem) : SnippetScore :=
  let text := (item.title ++ " " ++ item.snippet).toLower
  let positive_count := positive_keywords.countP (fun kw => keyword_in text kw)
  let negative_count := negative_keywords.countP (fun kw => keyword_in text kw)
  if negative_count < positive_count then
    { title := item.title, sentiment := "positive"
      score := ((min (positive_count - negative_count) 5 : ℕ) : ℚ) / 5
      source := item.source }
  else if positive_count < negative_count then
    { title := item.title, sentiment := "negative"
      score := -(((min (negative_count - positive_count) 5 : ℕ) : ℚ) / 5)
      source := item.source }
  else
    { title := item.title, sentiment := "neutral", score := 0, source := item.source }

/-- NewsAnalyzer.analyze_sentiment, news_analyzer.py lines 116 to 173: score
each item, then average; overall sentiment is positive above 0.2, negative
below -0.2, else neutral; an empty item list yields neutral with score 0. -/
def analyze_sentiment (news_items : List NewsItem) : SentimentAnalysis :=
  let sentiment_scores := news_items.map score_news_item
  if sentiment_scores.isEmpty then
    { overall_sentiment := "neutral", average_score := 0.0
      individual_scores := sentiment_scores, total_articles := sentiment_scores.length }
  else
    let avg_score := (sentiment_scores.map SnippetScore.score).sum / sentiment_scores.length
    let overall_sentiment :=
      if (0.2 : ℚ) < avg_score then "positive"
      else if avg_score < (-0.2 : ℚ) then "negative"
      else "neutral"
    { overall_sentiment := overall_sentiment, average_score := avg_score
      individual_scores := sentiment_scores, total_articles := sentiment_scores.length }

/-- The summary dict returned by get_stock_news_summary, news_analyzer.py
lines 180 to 203. -/
structure NewsSummary where
  symbol : String
  news_available : Bool
  sentiment : String
  sentiment_score : ℚ
  total_articles : ℕ
  recent_headlines : List String
  summary : String
deriving DecidableEq

/-- NewsAnalyzer.get_stock_news_summary, news_analyzer.py lines 175 to 203,
as a function of the news items the search collaborator produced (the search
returns the empty list both when the service is unconfigured and on any
search error, lines 31 to 33 and 68 to 70). An empty item list yields the
neutral, unavailable summary; otherwise the sentiment analysis is run and the
first three titles become the recent headlines. -/
def get_stock_news_summary (symbol : String) (news_items : List NewsItem) : NewsSummary :=
  if news_items.isEmpty then
    { symbol := symbol, news_available := false, sentiment := "neutral"
      sentiment_score := 0.0, total_articles := 0, recent_headlines := []
      summary := "No recent news found" }
  else
    let sentiment_analysis := analyze_sentiment news_items
    let recent_headlines := (news_items.take 3).map NewsItem.title
    { symbol := symbol, news_available := true
      sentiment := sentiment_analysis.overall_sentiment
      sentiment_score := sentiment_analysis.average_score
      total_articles := sentiment_analysis.total_articles
      recent_headlines := recent_headlines
      summary := "Found " ++ toString news_items.length ++ " recent articles with "
        ++ sentiment_analysis.overall_sentiment ++ " sentiment" }

/-- A suggestion dict as built in get_investment_suggestions,
investment_analyzer.py lines 198 to 218, together with the optional keys
added later by enhance_suggestions_with_news (lines 279 to 298); an Option
field is none while the corresponding dict key is absent. A pe_ratio of none
models the N/A string default. -/
structure Suggestion where
  symbol : String
  company_name : String
  price : ℚ
  currency : String
  region : String
  category : String
  sector : String
  industry : String
  risk_level : String
  daily_return : ℚ
  volatility : ℚ
  volume : ℚ
  market_cap : ℚ
  pe_ratio : Option ℚ
  dividend_yield : ℚ
  is_growth_stock : Bool
  risk_warning : Option String
  shares_affordable : ℤ
  investment_amount : ℚ
  news_sentiment : Option String := none
  news_score : Option ℚ := none
  news_available : Option Bool := none
  recent_headlines : Option (List String) := none
  recommendation_strength : Option ℚ := none
deriving DecidableEq

/-- The fields a suggestion dict carries before news enrichment
(investment_analyzer.py lines 198 to 218). -/
structure SuggestionBase where
  symbol : String
  company_name : String
  price : ℚ
  currency : String
  region : String
  category : String
  sector : String
  industry : String
  risk_level : String
  daily_return : ℚ
  volatility : ℚ
  volume : ℚ
  market_cap : ℚ
  pe_ratio : Option ℚ
  dividend_yield : ℚ
  is_growth_stock : Bool
  risk_warning : Option String
  shares_affordable : ℤ
  investment_amount : ℚ
deriving DecidableEq

/-- Projection of a suggestion onto its pre-enrichment fields. -/
def baseOf (s : Suggestion) : SuggestionBase :=
  { symbol := s.symbol, company_name := s.company_name, price := s.price
    currency := s.currency, region := s.region, category := s.category
    sector := s.sector, industry := s.industry, risk_level := s.risk_level
    daily_return := s.daily_return, volatility := s.volatility, volume := s.volume
    market_cap := s.market_cap, pe_ratio := s.pe_ratio
    dividend_yield := s.dividend_yield, is_growth_stock := s.is_growth_stock
    risk_warning := s.risk_warning, shares_affordable := s.shares_affordable
    investment_amount := s.investment_amount }

/-- The Python sort key of investment_analyzer.py line 227: the tuple
(- daily_return, region, risk_level), compared lexicographically, with the
two string components compared as strings. -/
def suggestion_sort_key (s : Suggestion) : ℚ ×ₗ String ×ₗ String :=
  toLex (-s.daily_return, toLex (s.region, s.risk_level))

/-- The boolean ordering the sort of line 227 establishes. -/
def suggestion_le (a b : Suggestion) : Bool :=
  decide (suggestion_sort_key a ≤ suggestion_sort_key b)

/-- suggestions.sort(key) of investment_analyzer.py line 227: a stable sort
ascending by the tuple key, modelled by mergeSort. -/
def sort_suggestions (l : List Suggestion) : List Suggestion :=
  l.mergeSort suggestion_le

/-- The per-suggestion body of enhance_suggestions_with_news,
investment_analyzer.py lines 270 to 299. The news lookup returns none when
the per-symbol summary raised (the except branch, lines 292 to 298, installs
the neutral defaults); on success the summary fields are copied in and the
recommendation strength is nudged by 0.1 for a positive or negative
sentiment, clamped to [0, 1], defaulting to 0.5 when previously absent. -/
def enhance_one (lookup : String → Option NewsSummary) (s : Suggestion) : Suggestion :=
  match lookup s.symbol with
  | some news_summary =>
    let s1 := { s with news_sentiment := some news_summary.sentiment
                       news_score := some news_summary.sentiment_score
                       news_available := some news_summary.news_available
                       recent_headlines := some news_summary.recent_headlines }
    if news_summary.sentiment = "positive" then
      { s1 with recommendation_strength := some (min (s1.recommendation_strength.getD 0.5 + 0.1) 1.0) }
    else if news_summary.sentiment = "negative" then
      { s1 with recommendation_strength := some (max (s1.recommendation_strength.getD 0.5 - 0.1) 0.0) }
    else s1
  | none =>
    { s with news_sentiment := some "neutral", news_score := some 0.0
             news_available := some false, recent_headlines := some [] }

/-- InvestmentAnalyzer.enhance_suggestions_with_news, investment_analyzer.py
lines 266 to 301: each suggestion is processed in order and appended to the
output list. -/
def enhance_suggestions_with_news (lookup : String → Option NewsSummary) :
    List Suggestion → List Suggestion :=
  List.map (enhance_one lookup)

/-- The tail of InvestmentAnalyzer.get_investment_suggestions,
investment_analyzer.py lines 226 to 236: the list of suggestions assembled
from the per-symbol market fetches (an input here, since the fetch loop only
consumes the external market-data provider) is sorted by the line 227 key and
then enhanced with news. -/
def get_investment_suggestions (raw : List Suggestion)
    (lookup : String → Option NewsSummary) : List Suggestion :=
  enhance_suggestions_with_news lookup (sort_suggestions raw)

/-- The risk-tier rank that claim C1 prescribes for the sort tie-break: the
fixed ordering low < medium < high < extreme. Written from the words of the
spec, to be compared with the string comparison the code performs. -/
def claimed_risk_rank (risk : String) : ℕ :=
  if risk = "low" then 0
  else if risk = "medium" then 1
  else if risk = "high" then 2
  else 3

/-- Sortedness by the composite key exactly as claim C1 states it: every
adjacent pair is ordered by descending daily return, ties by ascending
region, and remaining ties by the fixed risk ordering low < medium < high <
extreme. Written from the words of the spec. -/
def spec_claimed_sorted (l : List Suggestion) : Prop :=
  l.Chain' (fun a b => b.daily_return ≤ a.daily_return ∧
    (a.daily_return = b.daily_return → a.region ≤ b.region ∧
      (a.region = b.region → claimed_risk_rank a.risk_level ≤ claimed_risk_rank b.risk_level)))

/-- A concrete suggestion with the given daily return, region and risk
level, used as input for concrete evaluations. -/
def mkSuggestion (dr : ℚ) (region risk : String) : Suggestion :=
  { symbol := "AAPL", company_name := "Apple Inc", price := 175.50
    currency := "USD", region := region, category := "Blue Chip"
    sector := "Technology", industry := "Consumer Electronics"
    risk_level := risk, daily_return := dr, volatility := 0.1, volume := 1000
    market_cap := 1000000, pe_ratio := none, dividend_yield := 0
    is_growth_stock := false, risk_warning := none, shares_affordable := 10
    investment_amount := 1755 }

/-- A concrete in-window sell transaction, used as input for concrete
evaluations. -/
def cex_sell_tx : Transaction :=
  { id := "t1", symbol := "AAPL", action := "sell", shares := 1, price := 10
    timestamp := { time := 0, date := 0, week := 0 }, total_value := 10 }

/-- A concrete in-window buy transaction of 300 dollars, used as input for
concrete evaluations. -/
def wit_buy_tx : Transaction :=
  { id := "b1", symbol := "AAPL", action := "buy", shares := 1, price := 300
    timestamp := { time := 0, date := 0, week := 0 }, total_value := 300 }

/-! Theorems. -/

/-- C2 counterexample: a single in-window sell transaction has an empty
filtered buy or dividend-reinvest subset, yet calculate_spending_patterns
returns the fallback pattern, not none, contradicting the claim that the
estimator returns none whenever the filtered subset is empty. -/
theorem C2_counterexample :
    ((get_transaction_history 0 30 [cex_sell_tx]).filter
        (fun t => decide (t.action = "buy") || decide (t.action = "dividend_reinvest"))).isEmpty
      = true ∧
    calculate_spending_patterns 0 30 [cex_sell_tx] ≠ none := by
  constructor
  · simp [get_transaction_history, cex_sell_tx, List.filter]
  · have h : calculate_spending_patterns 0 30 [cex_sell_tx] =
        some { daily_average := 50, weekly_average := 350, monthly_average := 1500 } := by
      simp [calculate_spending_patterns, get_transaction_history, cex_sell_tx, List.filter]
      norm_num
    simp [h]

/-- C2 (amended): calculate_spending_patterns returns none exactly when the
trailing window holds no transactions at all (in particular on the empty
transaction list); when the window is nonempty but holds no buy or
dividend_reinvest transaction, it returns the fixed fallback pattern
(50, 350, 1500) instead of none. -/
theorem C2_estimate_none_iff_window_empty (now days : ℚ) (txs : List Transaction) :
    (calculate_spending_patterns now days txs = none ↔
      (get_transaction_history now days txs).isEmpty = true) ∧
    calculate_spending_patterns now days [] = none ∧
    ((get_transaction_history now days txs).isEmpty = false →
      ((get_transaction_history now days txs).filter
          (fun t => decide (t.action = "buy") || decide (t.action = "dividend_reinvest"))).isEmpty
        = true →
      calculate_spending_patterns now days txs =
        some { daily_average := 50, weekly_average := 350, monthly_average := 1500 }) := by
  refine ⟨?_, by simp [calculate_spending_patterns, get_transaction_history], ?_⟩
  · simp only [calculate_spending_patterns]
    split_ifs with h1 h2 <;> simp [h1]
  · intro h1 h2
    simp only [calculate_spending_patterns]
    rw [if_neg (by simp [h1]), if_pos h2]
    norm_num

/-- C3: identify_unused_funds computes the safety net as one month of
spending and the unused funds as the balance minus it, returns none exactly
when the unused funds fall below MIN_INVESTMENT_AMOUNT, and otherwise
returns the balance, monthly average, unused funds and the threshold
monthly average times (1 + UNUSED_BALANCE_THRESHOLD). -/
theorem C3_identify_unused_funds (B : ℚ) (pat : Option SpendingPattern) :
    (identify_unused_funds B pat = none ↔
      B - pattern_monthly_average pat < MIN_INVESTMENT_AMOUNT) ∧
    (MIN_INVESTMENT_AMOUNT ≤ B - pattern_monthly_average pat →
      identify_unused_funds B pat = some
        { total_balance := B
          monthly_average := pattern_monthly_average pat
          unused_funds := B - pattern_monthly_average pat
          threshold := pattern_monthly_average pat * (1 + UNUSED_BALANCE_THRESHOLD)
          available_for_investment := B - pattern_monthly_average pat }) := by
  unfold identify_unused_funds
  simp only [mul_one]
  split_ifs with h
  · exact ⟨iff_of_false (by simp) (not_lt.mpr h), fun _ => rfl⟩
  · exact ⟨iff_of_true rfl (not_le.mp h), fun hc => absurd hc h⟩

/-- C3 witness: a cash balance of 10000 with the default monthly average of
1500 yields unused funds 8500 and a non-none result with threshold 2250. -/
theorem C3_witness :
    MIN_INVESTMENT_AMOUNT ≤ (10000 : ℚ) - pattern_monthly_average none ∧
    identify_unused_funds 10000 none = some
      { total_balance := 10000, monthly_average := 1500, unused_funds := 8500
        threshold := 2250, available_for_investment := 8500 } := by
  have h1 : MIN_INVESTMENT_AMOUNT ≤ (10000 : ℚ) - pattern_monthly_average none := by
    norm_num [MIN_INVESTMENT_AMOUNT, pattern_monthly_average]
  refine ⟨h1, ?_⟩
  rw [(C3_identify_unused_funds 10000 none).2 h1]
  norm_num [pattern_monthly_average, UNUSED_BALANCE_THRESHOLD]

/-- C4: the suggestion-path risk classifier agrees everywhere with the
classifier described by the spec (baseRisk from growth flag and region,
then the four volatility tiers), and in particular yields low for
volatility 0.15, no growth, region US, and medium for volatility 0.15,
growth, region Germany. -/
theorem C4_classify_risk_matches_spec :
    (∀ v g region, classify_risk v g region = spec_classify_risk v g region) ∧
    classify_risk 0.15 false "US" = "low" ∧
    classify_risk 0.15 true "Germany" = "medium" := by
  refine ⟨fun v g region => ?_, ?_, ?_⟩
  · unfold classify_risk spec_classify_risk base_risk
    rcases lt_or_le v 0.2 with h1 | h1
    · rw [if_pos h1, if_pos h1]
    · have h1n : ¬ (v < 0.2) := not_lt.mpr h1
      rw [if_neg h1n, if_neg h1n]
      rcases lt_or_le v 0.3 with h2 | h2
      · rw [if_pos h2, if_pos (show 0.2 ≤ v ∧ v < 0.3 from ⟨h1, h2⟩)]
      · have h2n : ¬ (v < 0.3) := not_lt.mpr h2
        rw [if_neg h2n, if_neg (show ¬ (0.2 ≤ v ∧ v < 0.3) from fun hc => h2n hc.2)]
        rcases lt_or_le v 0.5 with h3 | h3
        · rw [if_pos h3, if_pos (show 0.3 ≤ v ∧ v < 0.5 from ⟨h2, h3⟩)]
        · have h3n : ¬ (v < 0.5) := not_lt.mpr h3
          rw [if_neg h3n, if_neg (show ¬ (0.3 ≤ v ∧ v < 0.5) from fun hc => h3n hc.2)]
  · simp only [classify_risk, base_risk]
    norm_num
  · simp only [classify_risk, base_risk]
    simp only [show ¬(("Germany" : String) = "US" ∨ ("Germany" : String) = "UK") from by decide,
      if_neg, if_false]
    norm_num

/-- C2 witness: the empty transaction list yields none, and a window holding
only a sell yields the fallback pattern. -/
theorem C2_witness :
    calculate_spending_patterns 0 30 ([] : List Transaction) = none ∧
    calculate_spending_patterns 0 30 [cex_sell_tx] =
      some { daily_average := 50, weekly_average := 350, monthly_average := 1500 } := by
  refine ⟨(C2_estimate_none_iff_window_empty 0 30 []).2.1, ?_⟩
  exact (C2_estimate_none_iff_window_empty 0 30 [cex_sell_tx]).2.2
    (by simp [get_transaction_history, cex_sell_tx, List.filter])
    (by simp [get_transaction_history, cex_sell_tx, List.filter])

/-- C5: starting from non-negative holdings, a sell of s non-negative shares
at price pr clamps the holding of the sold symbol to max 0 (previous - s),
adds s times pr to cash using the requested s, and every action keeps all
holdings non-negative. -/
theorem C5_sell_clamps_holdings (p : MockPortfolio) (now : Timestamp)
    (symbol : String) (s pr : ℚ)
    (hh : ∀ sym, 0 ≤ p.holdings sym) (hs : 0 ≤ s) :
    (add_transaction p now symbol "sell" s (some pr)).holdings symbol
      = max 0 (p.holdings symbol - s) ∧
    (add_transaction p now symbol "sell" s (some pr)).cash_balance
      = p.cash_balance + s * pr ∧
    (∀ action priceArg sym,
      0 ≤ (add_transaction p now symbol action s priceArg).holdings sym) := by
  refine ⟨by simp [add_transaction], by simp [add_transaction], ?_⟩
  intro action priceArg sym
  rcases eq_or_ne action "buy" with hb | hb
  · subst hb
    rcases eq_or_ne sym symbol with h | h
    · subst h
      simpa [add_transaction] using add_nonneg (hh sym) hs
    · simpa [add_transaction, Function.update_noteq h] using hh sym
  · rcases eq_or_ne action "sell" with hsl | hsl
    · subst hsl
      rcases eq_or_ne sym symbol with h | h
      · subst h
        have hupd : (add_transaction p now sym "sell" s priceArg).holdings sym
            = max 0 (p.holdings sym - s) := by simp [add_transaction]
        rw [hupd]
        exact le_max_left _ _
      · simpa [add_transaction, Function.update_noteq h] using hh sym
    · rcases eq_or_ne action "dividend" with hd | hd
      · subst hd
        simpa [add_transaction] using hh sym
      · simpa [add_transaction, hb, hsl, hd] using hh sym

/-- C5 witness: selling 9 shares at 10 dollars from a holding of 5 clamps
the holding to max 0 (5 - 9) = 0 while cash grows by the full 90. -/
theorem C5_witness :
    (add_transaction { cash_balance := 50000, holdings := fun _ => 5, transactions := [] }
        { time := 0, date := 0, week := 0 } "AAPL" "sell" 9 (some 10)).holdings "AAPL"
      = max 0 ((5 : ℚ) - 9) ∧
    (add_transaction { cash_balance := 50000, holdings := fun _ => 5, transactions := [] }
        { time := 0, date := 0, week := 0 } "AAPL" "sell" 9 (some 10)).cash_balance
      = 50000 + 9 * 10 := by
  have h := C5_sell_clamps_holdings
    { cash_balance := 50000, holdings := fun _ => 5, transactions := [] }
    { time := 0, date := 0, week := 0 } "AAPL" 9 10
    (fun sym => by norm_num) (by norm_num)
  exact ⟨h.1, h.2.1⟩

/-- C6: a buy of s shares at price pr decreases cash by exactly s times pr,
increases the holding of the symbol by exactly s, and appends one
transaction whose total value is s times pr. -/
theorem C6_buy_updates (p : MockPortfolio) (now : Timestamp) (symbol : String)
    (s pr : ℚ) (hs : 0 ≤ s) (hp : 0 ≤ pr) :
    (add_transaction p now symbol "buy" s (some pr)).cash_balance
      = p.cash_balance - s * pr ∧
    (add_transaction p now symbol "buy" s (some pr)).holdings symbol
      = p.holdings symbol + s ∧
    ∃ t, (add_transaction p now symbol "buy" s (some pr)).transactions
        = p.transactions ++ [t] ∧ t.total_value = s * pr := by
  refine ⟨by simp [add_transaction], by simp [add_transaction],
    ⟨{ id := "manual_" ++ toString p.transactions.length, symbol := symbol
       action := "buy", shares := s, price := pr, timestamp := now
       total_value := s * pr }, ?_, rfl⟩⟩
  simp [add_transaction]

/-- C6 witness: buying 2 shares of AAPL at 100 from the all-5 ledger. -/
theorem C6_witness :
    (add_transaction { cash_balance := 50000, holdings := fun _ => 5, transactions := [] }
        { time := 0, date := 0, week := 0 } "AAPL" "buy" 2 (some 100)).cash_balance
      = 50000 - 2 * 100 ∧
    (add_transaction { cash_balance := 50000, holdings := fun _ => 5, transactions := [] }
        { time := 0, date := 0, week := 0 } "AAPL" "buy" 2 (some 100)).holdings "AAPL"
      = 5 + 2 := by
  have h := C6_buy_updates
    { cash_balance := 50000, holdings := fun _ => 5, transactions := [] }
    { time := 0, date := 0, week := 0 } "AAPL" 2 100 (by norm_num) (by norm_num)
  exact ⟨h.1, h.2.1⟩

/-- C7: a dividend with shares argument a adds exactly a to cash, appends
one transaction whose total value is a (not a times the price argument),
and leaves the entire holdings mapping unchanged. -/
theorem C7_dividend_adds_cash (p : MockPortfolio) (now : Timestamp)
    (symbol : String) (a pr : ℚ) (ha : 0 ≤ a) :
    (add_transaction p now symbol "dividend" a (some pr)).cash_balance
      = p.cash_balance + a ∧
    (add_transaction p now symbol "dividend" a (some pr)).holdings = p.holdings ∧
    ∃ t, (add_transaction p now symbol "dividend" a (some pr)).transactions
        = p.transactions ++ [t] ∧ t.total_value = a := by
  refine ⟨by simp [add_transaction], by simp [add_transaction],
    ⟨{ id := "manual_" ++ toString p.transactions.length, symbol := symbol
       action := "dividend", shares := a, price := pr, timestamp := now
       total_value := a }, ?_, rfl⟩⟩
  simp [add_transaction]

/-- C7 witness: a dividend of 75 at an arbitrary price argument of 3. -/
theorem C7_witness :
    (add_transaction { cash_balance := 50000, holdings := fun _ => 5, transactions := [] }
        { time := 0, date := 0, week := 0 } "DIVIDEND" "dividend" 75 (some 3)).cash_balance
      = 50000 + 75 ∧
    (add_transaction { cash_balance := 50000, holdings := fun _ => 5, transactions := [] }
        { time := 0, date := 0, week := 0 } "DIVIDEND" "dividend" 75 (some 3)).holdings
      = (fun _ => (5 : ℚ)) := by
  have h := C7_dividend_adds_cash
    { cash_balance := 50000, holdings := fun _ => 5, transactions := [] }
    { time := 0, date := 0, week := 0 } "DIVIDEND" 75 3 (by norm_num)
  exact ⟨h.1, h.2.1⟩

/-- C8: with no news items available the summary is neutral with score 0,
news unavailable and no headlines, and scoring the empty snippet sequence is
likewise neutral with score 0. -/
theorem C8_no_news_is_neutral (symbol : String) :
    (get_stock_news_summary symbol []).sentiment = "neutral" ∧
    (get_stock_news_summary symbol []).sentiment_score = 0 ∧
    (get_stock_news_summary symbol []).news_available = false ∧
    (get_stock_news_summary symbol []).recent_headlines = [] ∧
    (analyze_sentiment []).overall_sentiment = "neutral" ∧
    (analyze_sentiment []).average_score = 0 := by
  refine ⟨rfl, by norm_num [get_stock_news_summary], rfl, rfl, rfl,
    by norm_num [analyze_sentiment]⟩

/-- C9: whenever calculate_spending_patterns returns a pattern, its monthly
average equals its daily average times 30, including on the fallback
constants where 1500 = 50 times 30. -/
theorem C9_monthly_average_is_daily_times_30 (now days : ℚ)
    (txs : List Transaction) (pat : SpendingPattern)
    (h : calculate_spending_patterns now days txs = some pat) :
    pat.monthly_average = pat.daily_average * 30 := by
  simp only [calculate_spending_patterns] at h
  by_cases h1 : (get_transaction_history now days txs).isEmpty = true
  · rw [if_pos h1] at h
    exact absurd h (by simp)
  · rw [if_neg h1] at h
    by_cases h2 : ((get_transaction_history now days txs).filter
        (fun t => decide (t.action = "buy")
          || decide (t.action = "dividend_reinvest"))).isEmpty = true
    · rw [if_pos h2] at h
      have h3 := Option.some.inj h
      subst h3
      norm_num
    · rw [if_neg h2] at h
      have h3 := Option.some.inj h
      subst h3
      by_cases hd : (group_total_values (fun t => t.timestamp.date)
          ((get_transaction_history now days txs).filter
            (fun t => decide (t.action = "buy")
              || decide (t.action = "dividend_reinvest")))).isEmpty = true
      · simp only [if_pos hd]
        norm_num
      · simp only [if_neg hd]

/-- C9 witness: a single in-window buy of 300 dollars gives daily average
300 and monthly average 9000 = 300 times 30. -/
theorem C9_witness :
    calculate_spending_patterns 0 30 [wit_buy_tx] =
      some { daily_average := 300, weekly_average := 300, monthly_average := 9000 } ∧
    (9000 : ℚ) = 300 * 30 := by
  have h : calculate_spending_patterns 0 30 [wit_buy_tx] =
      some { daily_average := 300, weekly_average := 300, monthly_average := 9000 } := by
    norm_num [calculate_spending_patterns, get_transaction_history, wit_buy_tx,
      group_total_values, listMean, List.filter]
  exact ⟨h, by simpa using C9_monthly_average_is_daily_times_30 0 30 [wit_buy_tx] _ h⟩

/-- News enrichment leaves every pre-enrichment field of a suggestion
unchanged. -/
theorem baseOf_enhance_one (lookup : String → Option NewsSummary) (s : Suggestion) :
    baseOf (enhance_one lookup s) = baseOf s := by
  unfold enhance_one
  cases lookup s.symbol with
  | none => rfl
  | some ns =>
    dsimp only
    split_ifs <;> rfl

/-- News enrichment commutes with the base projection on whole lists. -/
theorem enhance_map_baseOf (lookup : String → Option NewsSummary)
    (l : List Suggestion) :
    (enhance_suggestions_with_news lookup l).map baseOf = l.map baseOf := by
  unfold enhance_suggestions_with_news
  rw [List.map_map]
  exact List.map_congr_left (fun s _ => baseOf_enhance_one lookup s)

/-- The three fields the sort key reads are untouched by enrichment. -/
theorem enhance_one_fields (lookup : String → Option NewsSummary) (s : Suggestion) :
    (enhance_one lookup s).daily_return = s.daily_return ∧
    (enhance_one lookup s).region = s.region ∧
    (enhance_one lookup s).risk_level = s.risk_level :=
  ⟨congrArg SuggestionBase.daily_return (baseOf_enhance_one lookup s),
   congrArg SuggestionBase.region (baseOf_enhance_one lookup s),
   congrArg SuggestionBase.risk_level (baseOf_enhance_one lookup s)⟩

/-- C10: enrichment returns the same number of suggestions in the same
order, leaving every pre-existing field of each suggestion unchanged,
whether or not the per-symbol news lookup succeeds. -/
theorem C10_enhance_preserves_suggestions (lookup : String → Option NewsSummary)
    (l : List Suggestion) :
    (enhance_suggestions_with_news lookup l).length = l.length ∧
    (enhance_suggestions_with_news lookup l).map baseOf = l.map baseOf :=
  ⟨by simp [enhance_suggestions_with_news], enhance_map_baseOf lookup l⟩

/-- The boolean sort ordering is total. -/
theorem suggestion_le_total (a b : Suggestion) :
    suggestion_le a b || suggestion_le b a := by
  simp only [suggestion_le, Bool.or_eq_true, decide_eq_true_eq]
  exact le_total _ _

/-- The boolean sort ordering is transitive. -/
theorem suggestion_le_trans (a b c : Suggestion) :
    suggestion_le a b → suggestion_le b c → suggestion_le a c := by
  simp only [suggestion_le, decide_eq_true_eq]
  exact le_trans

/-- The sorted list produced at line 227 is pairwise ordered by the key. -/
theorem sorted_sort_suggestions (l : List Suggestion) :
    (sort_suggestions l).Pairwise (fun a b => suggestion_le a b = true) :=
  List.sorted_mergeSort (fun a b c => suggestion_le_trans a b c)
    (fun a b => suggestion_le_total a b) l

/-- The tuple-key comparison of line 227 spelled out on the fields: daily
return descending, then region ascending, then the risk-level string
ascending in ordinary string order. -/
theorem suggestion_le_imp (a b : Suggestion) (h : suggestion_le a b = true) :
    b.daily_return ≤ a.daily_return ∧
    (a.daily_return = b.daily_return → a.region ≤ b.region ∧
      (a.region = b.region → a.risk_level ≤ b.risk_level)) := by
  rw [suggestion_le, decide_eq_true_eq] at h
  unfold suggestion_sort_key at h
  rw [Prod.Lex.le_iff] at h
  rcases h with h | ⟨h1, h2⟩
  · have hba : b.daily_return < a.daily_return := neg_lt_neg_iff.mp h
    exact ⟨le_of_lt hba, fun he => absurd he (ne_of_gt hba)⟩
  · have hd : a.daily_return = b.daily_return := neg_inj.mp h1
    rw [Prod.Lex.le_iff] at h2
    rcases h2 with h2 | ⟨h2a, h2b⟩
    · exact ⟨le_of_eq hd.symm, fun _ => ⟨le_of_lt h2, fun hr => absurd hr (ne_of_lt h2)⟩⟩
    · exact ⟨le_of_eq hd.symm, fun _ => ⟨le_of_eq h2a, fun _ => h2b⟩⟩

/-- C1 (amended): every sequence returned by get_investment_suggestions is
sorted by the composite key (- dailyReturn, region ascending, riskLevel
ascending in plain string order): for adjacent a before b the daily return
of a is at least that of b; on ties the region of a is at most that of b
lexicographically; and when the regions agree too, the risk-level string of
a is at most that of b in string order (so extreme before high before low
before medium), since the code compares the tier names as strings. -/
theorem C1_rank_output_sorted (raw : List Suggestion)
    (lookup : String → Option NewsSummary) :
    (get_investment_suggestions raw lookup).Chain'
      (fun a b => b.daily_return ≤ a.daily_return ∧
        (a.daily_return = b.daily_return → a.region ≤ b.region ∧
          (a.region = b.region → a.risk_level ≤ b.risk_level))) := by
  unfold get_investment_suggestions enhance_suggestions_with_news
  have hp := (sorted_sort_suggestions raw).chain'
  refine List.chain'_map_of_chain' (enhance_one lookup) ?_ hp
  intro a b hab
  rcases enhance_one_fields lookup a with ⟨ha1, ha2, ha3⟩
  rcases enhance_one_fields lookup b with ⟨hb1, hb2, hb3⟩
  rw [ha1, ha2, ha3, hb1, hb2, hb3]
  exact suggestion_le_imp a b hab

/-- C1 counterexample: two suggestions with equal daily return and region
and risk levels extreme and low come back with extreme first, because the
code compares the tier names as strings; the ordering low before medium
before high before extreme the claim prescribes is violated. -/
theorem C1_counterexample :
    ¬ spec_claimed_sorted
        (get_investment_suggestions
          [mkSuggestion 0 "US" "extreme", mkSuggestion 0 "US" "low"] (fun _ => none)) := by
  have hle : suggestion_le (mkSuggestion 0 "US" "extreme") (mkSuggestion 0 "US" "low")
      = true := by
    simp only [suggestion_le, decide_eq_true_eq, suggestion_sort_key, mkSuggestion]
    rw [Prod.Lex.le_iff]
    refine Or.inr ⟨rfl, ?_⟩
    rw [Prod.Lex.le_iff]
    refine Or.inr ⟨rfl, ?_⟩
    exact le_of_lt (by rw [String.lt_iff_toList_lt]; decide)
  have hsorted : sort_suggestions [mkSuggestion 0 "US" "extreme", mkSuggestion 0 "US" "low"]
      = [mkSuggestion 0 "US" "extreme", mkSuggestion 0 "US" "low"] := by
    unfold sort_suggestions
    exact List.mergeSort_of_sorted (by simp [List.pairwise_cons, hle])
  unfold get_investment_suggestions
  rw [hsorted]
  simp only [spec_claimed_sorted, enhance_suggestions_with_news, List.map_cons, List.map_nil,
    List.chain'_cons, List.chain'_singleton, and_true]
  simp [enhance_one, mkSuggestion, claimed_risk_rank]

end Oscar
